import Mathlib

/-!
Shallow embedding of the `checkd` Cloudflare Worker (dual-path credential
validator).  The definitions below are translated from the TypeScript source:
the `check` coordinator, `validateCloudflareAccessToken` (Remote-Key path),
`validateAppleDeviceToken` (Attestation path) and their helpers, plus the
earlier variant's `handleUpstreamResponse`.

External effects (console logging, `fetch`, reading a response body) are made
observable as an explicit event trace; outcomes of external operations
(clock reads, key import, signing, the attestation HTTP call, the JWKS fetch,
`jose.jwtVerify`) are supplied by an explicit `World` record.  The clock is
modelled as a single reading per request (`World.now`), matching the Workers
runtime, where `Date.now()` does not advance during request-local computation.
-/

namespace Checkd

/-- Environment bindings (`this.env`), loaded once from secret configuration. -/
structure Env where
  APPLE_KEY_ID : String
  APPLE_PRIVATE_KEY : String
  APPLE_DEVELOPER_ID : String
  CF_TEAM_NAME : String
  CF_AUD_TAG : String
  deriving Repr, DecidableEq

/-- A header set: a list of name/value pairs with case-insensitive lookup,
modelling the JS `Headers` object read by the worker. -/
structure Headers where
  entries : List (String × String)
  deriving Repr, DecidableEq

/-- ASCII lower-casing of a header name, character by character (the JS
`Headers` object compares and exposes names case-insensitively). -/
def lowerName (s : String) : String :=
  (s.data.map Char.toLower).asString

/-- `headers.get(name)`: case-insensitive lookup, `none` when absent
(JS returns `null`). -/
def Headers.get (h : Headers) (name : String) : Option String :=
  (h.entries.find? (fun p => lowerName p.1 == lowerName name)).map (fun p => p.2)

/-- `headers.has(name)`: case-insensitive presence test. -/
def Headers.has (h : Headers) (name : String) : Bool :=
  (h.get name).isSome

/-- The claim interface `DeviceClaim` (`device_token`, `transaction_id`,
`timestamp`). -/
structure DeviceClaim where
  device_token : String
  transaction_id : String
  timestamp : Nat
  deriving Repr, DecidableEq

/-- The signed JWT produced by `generateAppleJWT`, decoded: protected header
(`alg`, `kid`), payload claim fields, issuer, issued-at and expiration. -/
structure SignedEnvelope where
  alg : String
  kid : String
  payload : DeviceClaim
  iss : String
  iat : Nat
  exp : Nat
  deriving Repr, DecidableEq

/-- An upstream HTTP response: status code and body text. -/
structure HttpResponse where
  status : Nat
  body : String
  deriving Repr, DecidableEq

/-- Properties of the bearer token presented on the Remote-Key path, as seen
by `jose.jwtVerify`: whether it parses, whether its signature verifies against
the fetched key set, whether it is expired, and its `aud`/`iss` claims. -/
structure CfToken where
  wellFormed : Bool
  sigValid : Bool
  expired : Bool
  aud : String
  iss : String
  deriving Repr, DecidableEq

/-- Outcomes of the external operations a single validation request can
perform: the request-scoped clock reading, whether `jose.importPKCS8` and
`.sign` succeed, the result of the attestation `fetch`, whether the JWKS
fetch succeeds, and the presented bearer token's properties. -/
structure World where
  now : Nat
  keyImportOk : Bool
  signOk : Bool
  attestResult : Except String HttpResponse
  jwksOk : Bool
  cfToken : CfToken
  deriving Repr

/-- Observable side effects: `console.log`, `console.error`, the attestation
`fetch` call (with the URL it was given), the JWKS fetch issued by
`jose.jwtVerify`, and reading a response body. -/
inductive Event where
  | log (msg : String)
  | logError (msg : String)
  | fetchApple (url : String)
  | fetchJwks (url : String)
  | readBody
  deriving Repr, DecidableEq

/-- `getRequiredHeader`: returns the header value, throws
`` `${headerName} is missing` `` when the value is falsy (absent or empty). -/
def getRequiredHeader (h : Headers) (headerName : String) : Except String String :=
  match h.get headerName with
  | none => Except.error (headerName ++ " is missing")
  | some v => if v.isEmpty then Except.error (headerName ++ " is missing") else Except.ok v

/-- `createDeviceClaim`: one `Date.now()` reading (`now`) supplies both the
`timestamp` field and the `transaction_id` string `` `trns-${timestamp}` ``. -/
def createDeviceClaim (deviceToken : String) (now : Nat) : DeviceClaim :=
  { device_token := deviceToken
    transaction_id := "trns-" ++ Nat.repr now
    timestamp := now }

/-- `generateAppleJWT`: imports the PKCS8 private key (fallible), then signs
the claim with protected header `alg = "ES256"`, `kid = env.APPLE_KEY_ID`,
issued-at = the request clock reading, issuer = `env.APPLE_DEVELOPER_ID`,
expiration = issued-at + 1 hour (3600 s), per `jose.SignJWT`'s semantics for
`.setIssuedAt().setIssuer(...).setExpirationTime('1h')`. -/
def generateAppleJWT (env : Env) (w : World) (claim : DeviceClaim) :
    Except String SignedEnvelope :=
  if !w.keyImportOk then Except.error "key import failed"
  else if !w.signOk then Except.error "signing failed"
  else Except.ok
    { alg := "ES256"
      kid := env.APPLE_KEY_ID
      payload := claim
      iss := env.APPLE_DEVELOPER_ID
      iat := w.now
      exp := w.now + 3600 }

/-- `getAppleEndpoint`: pure function of the development flag; `api.development`
hostname when true, `api` when false. -/
def getAppleEndpoint (isDevelopment : Bool) : String :=
  let environment := if isDevelopment then "api.development" else "api"
  "https://" ++ environment ++ ".devicecheck.apple.com/v1/validate_device_token"

/-- `sendToApple`: POSTs the claim to the given URL.  A network-level failure
is logged and rethrown as `'Failed to send request to Apple'`.  The response
body is not read here. -/
def sendToApple (w : World) (url : String) : Except String HttpResponse × List Event :=
  match w.attestResult with
  | Except.ok resp => (Except.ok resp, [Event.fetchApple url])
  | Except.error e =>
      (Except.error "Failed to send request to Apple",
       [Event.fetchApple url,
        Event.logError ("Failed to send request to Apple endpoint: " ++ e)])

/-- The body of `validateAppleDeviceToken`'s `try` block: errors propagate as
`Except.error` to the surrounding catch. -/
def validateAppleBody (env : Env) (w : World) (h : Headers) :
    Except String Bool × List Event :=
  match getRequiredHeader h "X-Apple-Device-Token" with
  | Except.error e => (Except.error e, [])
  | Except.ok deviceToken =>
    let isDevelopment := h.get "X-Apple-Device-Development" == some "true"
    let claim := createDeviceClaim deviceToken w.now
    match generateAppleJWT env w claim with
    | Except.error e => (Except.error e, [])
    | Except.ok _jwt =>
      let upstreamUrl := getAppleEndpoint isDevelopment
      match sendToApple w upstreamUrl with
      | (Except.error e, evs) => (Except.error e, evs)
      | (Except.ok response, evs) => (Except.ok (response.status == 200), evs)

/-- `validateAppleDeviceToken`: runs the body under `try`; any thrown error is
logged and absorbed into `false` by the `catch`. -/
def validateAppleDeviceToken (env : Env) (w : World) (h : Headers) :
    Bool × List Event :=
  match validateAppleBody env w h with
  | (Except.ok b, evs) => (b, evs)
  | (Except.error e, evs) =>
      (false, evs ++ [Event.logError ("Error during device token validation: " ++ e)])

/-- The JWKS URL `` `https://${teamName}.cloudflareaccess.com/cdn-cgi/access/certs` ``. -/
def certsUrl (teamName : String) : String :=
  "https://" ++ teamName ++ ".cloudflareaccess.com/cdn-cgi/access/certs"

/-- The expected issuer `` `https://${teamName}.cloudflareaccess.com` ``. -/
def cfIssuer (teamName : String) : String :=
  "https://" ++ teamName ++ ".cloudflareaccess.com"

/-- Model of `jose.jwtVerify(token, JWKS, \x7b audience, issuer \x7d)` against a
remote key set (external library, modelled from its documented behaviour): it
succeeds, returning the token, only when the token parses, the key-set fetch
succeeds, the signature verifies, the token is unexpired and the `aud` and
`iss` claims match the expected audience and issuer; otherwise it throws. -/
def jwtVerify (tok : CfToken) (jwksOk : Bool) (audience issuer : String) :
    Except String CfToken :=
  if !tok.wellFormed then Except.error "malformed token"
  else if !jwksOk then Except.error "key set fetch failed"
  else if !tok.sigValid then Except.error "signature verification failed"
  else if tok.expired then Except.error "token expired"
  else if tok.aud != audience then Except.error "unexpected aud claim"
  else if tok.iss != issuer then Except.error "unexpected iss claim"
  else Except.ok tok

/-- `validateCloudflareAccessToken`: reads the assertion header (returning
`false` when the value is falsy), builds the certs URL from `CF_TEAM_NAME`,
and calls `jose.jwtVerify` with audience `CF_AUD_TAG` and the team issuer.
Success logs the payload and protected header and returns `true`; any
verification error is logged and absorbed into `false`. -/
def validateCloudflareAccessToken (env : Env) (w : World) (h : Headers) :
    Bool × List Event :=
  match h.get "Cf-Access-Jwt-Assertion" with
  | none => (false, [])
  | some token =>
    if token.isEmpty then (false, [])
    else
      let url := certsUrl env.CF_TEAM_NAME
      match jwtVerify w.cfToken w.jwksOk env.CF_AUD_TAG (cfIssuer env.CF_TEAM_NAME) with
      | Except.ok payload =>
          (true,
           [Event.fetchJwks url,
            Event.log ("Token payload: aud=" ++ payload.aud ++ " iss=" ++ payload.iss),
            Event.log "Protected header: alg=RS256"])
      | Except.error e =>
          (false,
           [Event.fetchJwks url,
            Event.logError ("Error verifying Cloudflare Access token: " ++ e)])

/-- The per-header `console.log` of `check`'s opening `forEach` (the JS
`Headers` iterator exposes lower-cased names). -/
def headerLogs (h : Headers) : List Event :=
  h.entries.map (fun p => Event.log (lowerName p.1 ++ ": " ++ p.2))

/-- The `check` coordinator: logs all headers, then dispatches — the
access-assertion header selects the Remote-Key path, else the device-token
header selects the Attestation path, else logs and returns `false`.  The
surrounding `try`/`catch` absorbs any error into `false`; in this embedding
both path functions already model their own catches and are total. -/
def check (env : Env) (w : World) (h : Headers) : Bool × List Event :=
  if h.has "Cf-Access-Jwt-Assertion" then
    let r := validateCloudflareAccessToken env w h
    (r.1, headerLogs h ++ [Event.log "validating Cloudflare Access Token"] ++ r.2)
  else if h.has "X-Apple-Device-Token" then
    let r := validateAppleDeviceToken env w h
    (r.1, headerLogs h ++ [Event.log "validating Apple Device Token"] ++ r.2)
  else
    (false, headerLogs h ++ [Event.log "no valid tokens present"])

/-- `handleUpstreamResponse` from the earlier single-path variant: on any
status other than 200 it reads the response body text and throws an error
carrying the status and body; on 200 it returns `true`. -/
def handleUpstreamResponse (resp : HttpResponse) : Except String Bool × List Event :=
  if resp.status != 200 then
    (Except.error ("Upstream response error: " ++ Nat.repr resp.status ++ " - " ++ resp.body),
     [Event.readBody])
  else (Except.ok true, [])


/-- Every event the opening header `forEach` emits is a plain `console.log`. -/
theorem mem_headerLogs_isLog {h : Headers} {e : Event} (he : e ∈ headerLogs h) :
    ∃ s, e = Event.log s := by
  rcases List.mem_map.mp he with ⟨p, _, rfl⟩
  exact ⟨_, rfl⟩

/-- Trace shape of the Remote-Key path: only logs, error logs, and the JWKS
fetch for the configured team; in particular no attestation call and no
body read. -/
theorem validateCF_events {env : Env} {w : World} {h : Headers} {e : Event}
    (he : e ∈ (validateCloudflareAccessToken env w h).2) :
    (∃ s, e = Event.log s) ∨ (∃ s, e = Event.logError s) ∨
      e = Event.fetchJwks (certsUrl env.CF_TEAM_NAME) := by
  unfold validateCloudflareAccessToken at he
  rcases hg : h.get "Cf-Access-Jwt-Assertion" with _ | token
  · rw [hg] at he; simp at he
  · rw [hg] at he
    by_cases hemp : token.isEmpty
    · simp [hemp] at he
    · simp only [hemp] at he
      rcases hv : jwtVerify w.cfToken w.jwksOk env.CF_AUD_TAG (cfIssuer env.CF_TEAM_NAME) with p | p
      · rw [hv] at he
        simp only [Bool.false_eq_true, if_false, List.mem_cons, List.mem_singleton] at he
        rcases he with rfl | rfl | h3
        · right; right; rfl
        · right; left; exact ⟨_, rfl⟩
        · simp at h3
      · rw [hv] at he
        simp only [Bool.false_eq_true, if_false, List.mem_cons, List.mem_singleton] at he
        rcases he with rfl | rfl | rfl | h3
        · right; right; rfl
        · left; exact ⟨_, rfl⟩
        · left; exact ⟨_, rfl⟩
        · simp at h3

/-- Trace shape of the Attestation path: only error logs and the attestation
call, whose URL is the Apple endpoint selected by the development header;
in particular no JWKS fetch and no body read. -/
theorem validateApple_events {env : Env} {w : World} {h : Headers} {e : Event}
    (he : e ∈ (validateAppleDeviceToken env w h).2) :
    (∃ s, e = Event.logError s) ∨
      e = Event.fetchApple
        (getAppleEndpoint (h.get "X-Apple-Device-Development" == some "true")) := by
  unfold validateAppleDeviceToken validateAppleBody sendToApple at he
  rcases hg : getRequiredHeader h "X-Apple-Device-Token" with s | s
  · simp only [hg, List.nil_append, List.mem_singleton] at he
    exact Or.inl ⟨_, he⟩
  · simp only [hg] at he
    rcases hj : generateAppleJWT env w (createDeviceClaim s w.now) with e' | e'
    · simp only [hj, List.nil_append, List.mem_singleton] at he
      exact Or.inl ⟨_, he⟩
    · simp only [hj] at he
      rcases ha : w.attestResult with e'' | resp
      · simp only [ha, List.mem_append, List.mem_cons, List.mem_singleton,
          List.not_mem_nil, or_false] at he
        rcases he with (rfl | rfl) | rfl
        · exact Or.inr rfl
        · exact Or.inl ⟨_, rfl⟩
        · exact Or.inl ⟨_, rfl⟩
      · simp only [ha, List.mem_singleton] at he
        exact Or.inr (by rw [he])

/-- Result characterization of the Remote-Key path: it yields `true` exactly
when the assertion header holds a non-empty token, the key-set fetch succeeds,
and the token is well formed, unexpired, carries a valid signature, and its
`aud`/`iss` claims match the configured audience tag and team issuer. -/
theorem validateCF_true_iff_aux (env : Env) (w : World) (h : Headers) :
    (validateCloudflareAccessToken env w h).1 = true ↔
      ∃ v, h.get "Cf-Access-Jwt-Assertion" = some v ∧ v.isEmpty = false ∧
        w.cfToken.wellFormed = true ∧ w.jwksOk = true ∧
        w.cfToken.sigValid = true ∧ w.cfToken.expired = false ∧
        w.cfToken.aud = env.CF_AUD_TAG ∧
        w.cfToken.iss = cfIssuer env.CF_TEAM_NAME := by
  unfold validateCloudflareAccessToken jwtVerify
  rcases hg : h.get "Cf-Access-Jwt-Assertion" with _ | token
  · simp
  · by_cases hemp : token.isEmpty <;>
    cases hwf : w.cfToken.wellFormed <;> cases hjw : w.jwksOk <;>
    cases hsv : w.cfToken.sigValid <;> cases hex : w.cfToken.expired <;>
    by_cases haud : w.cfToken.aud = env.CF_AUD_TAG <;>
    by_cases hiss : w.cfToken.iss = cfIssuer env.CF_TEAM_NAME <;>
    simp [hemp, hwf, hjw, hsv, hex, haud, hiss, bne_iff_ne]

/-- Result characterization of the Attestation path: it yields `true` exactly
when the device-token header holds a non-empty token, key import and signing
succeed, and the attestation call returns HTTP 200. -/
theorem validateApple_true_iff_aux (env : Env) (w : World) (h : Headers) :
    (validateAppleDeviceToken env w h).1 = true ↔
      (∃ v, h.get "X-Apple-Device-Token" = some v ∧ v.isEmpty = false) ∧
      w.keyImportOk = true ∧ w.signOk = true ∧
      ∃ resp, w.attestResult = Except.ok resp ∧ resp.status = 200 := by
  unfold validateAppleDeviceToken validateAppleBody sendToApple getRequiredHeader
    generateAppleJWT
  rcases hg : h.get "X-Apple-Device-Token" with _ | v
  · simp [hg]
  · by_cases hemp : v.isEmpty <;>
    cases hki : w.keyImportOk <;> cases hsk : w.signOk <;>
    rcases ha : w.attestResult with e | resp <;>
    simp [hg, hemp, hki, hsk, ha, beq_iff_eq]

/-- C1: the coordinator `check` is a total function into `Bool` — for every
header set and every outcome of the downstream operations (signing, the
attestation HTTP call, the key-set fetch, token verification) it returns
exactly one boolean, and it returns `true` exactly when the exercised path
fully succeeded; consequently every error outcome (missing or empty header,
key import or signing failure, network failure, non-200 status, key-set fetch
failure, verification failure) terminates with the result `false`, and no
exception, rejection or partial result escapes to the caller. -/
theorem check_true_iff (env : Env) (w : World) (h : Headers) :
    (check env w h).1 = true ↔
      ((∃ v, h.get "Cf-Access-Jwt-Assertion" = some v ∧ v.isEmpty = false ∧
          w.cfToken.wellFormed = true ∧ w.jwksOk = true ∧
          w.cfToken.sigValid = true ∧ w.cfToken.expired = false ∧
          w.cfToken.aud = env.CF_AUD_TAG ∧
          w.cfToken.iss = cfIssuer env.CF_TEAM_NAME) ∨
        (h.has "Cf-Access-Jwt-Assertion" = false ∧
          (∃ v, h.get "X-Apple-Device-Token" = some v ∧ v.isEmpty = false) ∧
          w.keyImportOk = true ∧ w.signOk = true ∧
          ∃ resp, w.attestResult = Except.ok resp ∧ resp.status = 200)) := by
  by_cases hcf : h.has "Cf-Access-Jwt-Assertion"
  · have h1 : (check env w h).1 = (validateCloudflareAccessToken env w h).1 := by
      simp [check, hcf]
    rw [h1, validateCF_true_iff_aux]
    simp [hcf]
  · have hgn : h.get "Cf-Access-Jwt-Assertion" = none := by
      rcases hx : h.get "Cf-Access-Jwt-Assertion" with _ | v
      · rfl
      · exact absurd (by simp [Headers.has, hx]) hcf
    by_cases hap : h.has "X-Apple-Device-Token"
    · have h1 : (check env w h).1 = (validateAppleDeviceToken env w h).1 := by
        simp [check, hcf, hap]
      rw [h1, validateApple_true_iff_aux]
      simp [hgn, Bool.not_eq_true] at hcf ⊢
      simp [hcf]
    · have hgn2 : h.get "X-Apple-Device-Token" = none := by
        rcases hx : h.get "X-Apple-Device-Token" with _ | v
        · rfl
        · exact absurd (by simp [Headers.has, hx]) hap
      have h1 : (check env w h).1 = false := by
        simp [check, hcf, hap]
      rw [h1]
      simp [hgn, hgn2]

/-- C6: on the Remote-Key path, verification returns `true` exactly when the
bearer token's signature verifies against the fetched key set, the token is
well formed and unexpired, its audience claim equals the configured
`CF_AUD_TAG` and its issuer claim equals the issuer derived from the team
identifier; every failure — bad signature, expired token, wrong audience,
wrong issuer, key-set fetch failure, malformed token — therefore yields
`false`, a bare boolean with no further distinction. -/
theorem validateCloudflareAccessToken_true_iff (env : Env) (w : World) (h : Headers) :
    (validateCloudflareAccessToken env w h).1 = true ↔
      ∃ v, h.get "Cf-Access-Jwt-Assertion" = some v ∧ v.isEmpty = false ∧
        w.cfToken.wellFormed = true ∧ w.jwksOk = true ∧
        w.cfToken.sigValid = true ∧ w.cfToken.expired = false ∧
        w.cfToken.aud = env.CF_AUD_TAG ∧
        w.cfToken.iss = cfIssuer env.CF_TEAM_NAME :=
  validateCF_true_iff_aux env w h

/-- Classification of every event `check` can emit: plain logs, error logs,
the JWKS fetch (only when the access-assertion header is present), or the
attestation call at the endpoint selected by the development header (only
when the access-assertion header is absent and the device-token header is
present). -/
theorem check_events_cases {env : Env} {w : World} {h : Headers} {e : Event}
    (he : e ∈ (check env w h).2) :
    (∃ s, e = Event.log s) ∨ (∃ s, e = Event.logError s) ∨
    (h.has "Cf-Access-Jwt-Assertion" = true ∧
      e = Event.fetchJwks (certsUrl env.CF_TEAM_NAME)) ∨
    (h.has "Cf-Access-Jwt-Assertion" = false ∧ h.has "X-Apple-Device-Token" = true ∧
      e = Event.fetchApple
        (getAppleEndpoint (h.get "X-Apple-Device-Development" == some "true"))) := by
  by_cases hcf : h.has "Cf-Access-Jwt-Assertion"
  · have ht : (check env w h).2 =
        headerLogs h ++ Event.log "validating Cloudflare Access Token" ::
          (validateCloudflareAccessToken env w h).2 := by
      simp [check, hcf]
    rw [ht] at he
    rcases List.mem_append.mp he with h1 | h1
    · exact Or.inl (mem_headerLogs_isLog h1)
    · rcases List.mem_cons.mp h1 with rfl | h2
      · exact Or.inl ⟨_, rfl⟩
      · rcases validateCF_events h2 with h3 | h3 | h3
        · exact Or.inl h3
        · exact Or.inr (Or.inl h3)
        · exact Or.inr (Or.inr (Or.inl ⟨hcf, h3⟩))
  · by_cases hap : h.has "X-Apple-Device-Token"
    · have ht : (check env w h).2 =
          headerLogs h ++ Event.log "validating Apple Device Token" ::
            (validateAppleDeviceToken env w h).2 := by
        simp [check, hcf, hap]
      rw [ht] at he
      rcases List.mem_append.mp he with h1 | h1
      · exact Or.inl (mem_headerLogs_isLog h1)
      · rcases List.mem_cons.mp h1 with rfl | h2
        · exact Or.inl ⟨_, rfl⟩
        · rcases validateApple_events h2 with h3 | h3
          · exact Or.inr (Or.inl h3)
          · exact Or.inr (Or.inr (Or.inr ⟨by simpa using hcf, hap, h3⟩))
    · have ht : (check env w h).2 =
          headerLogs h ++ [Event.log "no valid tokens present"] := by
        simp [check, hcf, hap]
      rw [ht] at he
      rcases List.mem_append.mp he with h1 | h1
      · exact Or.inl (mem_headerLogs_isLog h1)
      · rcases List.mem_singleton.mp h1 with rfl
        exact Or.inl ⟨_, rfl⟩

/-- C2: when the access-assertion header is present, `check` executes only the
Remote-Key path — its result and trace are exactly those of
`validateCloudflareAccessToken` (after the header logs and path log), and no
attestation call is ever made, even when the device-token header is also
present. -/
theorem check_accessAssertion_precedence (env : Env) (w : World) (h : Headers)
    (url : String) (hcf : h.has "Cf-Access-Jwt-Assertion" = true) :
    check env w h =
      ((validateCloudflareAccessToken env w h).1,
       headerLogs h ++ Event.log "validating Cloudflare Access Token" ::
         (validateCloudflareAccessToken env w h).2) ∧
    Event.fetchApple url ∉ (check env w h).2 := by
  constructor
  · simp [check, hcf]
  · intro hm
    rcases check_events_cases hm with ⟨s, h1⟩ | ⟨s, h1⟩ | ⟨_, h1⟩ | ⟨hc, _, _⟩
    · exact Event.noConfusion h1
    · exact Event.noConfusion h1
    · exact Event.noConfusion h1
    · rw [hcf] at hc; exact Bool.noConfusion hc

/-- Concrete configuration used by the witnesses. -/
def wEnv : Env :=
  { APPLE_KEY_ID := "kid-1"
    APPLE_PRIVATE_KEY := "pem-key"
    APPLE_DEVELOPER_ID := "team-apple"
    CF_TEAM_NAME := "myteam"
    CF_AUD_TAG := "aud-tag" }

/-- Concrete all-successful world used by the witnesses. -/
def wOk : World :=
  { now := 1000
    keyImportOk := true
    signOk := true
    attestResult := Except.ok { status := 200, body := "ok" }
    jwksOk := true
    cfToken :=
      { wellFormed := true
        sigValid := true
        expired := false
        aud := "aud-tag"
        iss := "https://myteam.cloudflareaccess.com" } }

/-- A header set presenting both credentials. -/
def hdrsBoth : Headers :=
  ⟨[("Cf-Access-Jwt-Assertion", "bearer-token"), ("X-Apple-Device-Token", "device-token")]⟩

theorem check_accessAssertion_precedence_witness :
    check wEnv wOk hdrsBoth =
      ((validateCloudflareAccessToken wEnv wOk hdrsBoth).1,
       headerLogs hdrsBoth ++ Event.log "validating Cloudflare Access Token" ::
         (validateCloudflareAccessToken wEnv wOk hdrsBoth).2) ∧
    Event.fetchApple "https://api.devicecheck.apple.com/v1/validate_device_token" ∉
      (check wEnv wOk hdrsBoth).2 :=
  check_accessAssertion_precedence wEnv wOk hdrsBoth
    "https://api.devicecheck.apple.com/v1/validate_device_token" (by decide)

/-- C7: the attestation endpoint URL is a pure function of the single
development-flag boolean — `true` selects the `api.development` hostname,
`false` the `api` hostname — and the flag handed to it is exactly the test
`X-Apple-Device-Development = "true"`: every attestation call `check` makes
uses the URL `getAppleEndpoint` returns for that header comparison, with no
other branching. -/
theorem appleEndpoint_selection (env : Env) (w : World) (h : Headers) (url : String)
    (hm : Event.fetchApple url ∈ (check env w h).2) :
    getAppleEndpoint true =
      "https://api.development.devicecheck.apple.com/v1/validate_device_token" ∧
    getAppleEndpoint false =
      "https://api.devicecheck.apple.com/v1/validate_device_token" ∧
    url = getAppleEndpoint (h.get "X-Apple-Device-Development" == some "true") := by
  refine ⟨by decide, by decide, ?_⟩
  rcases check_events_cases hm with ⟨s, h1⟩ | ⟨s, h1⟩ | ⟨_, h1⟩ | ⟨_, _, h1⟩
  · exact Event.noConfusion h1
  · exact Event.noConfusion h1
  · exact Event.noConfusion h1
  · exact Event.noConfusion h1 (fun hu => hu)

/-- A header set presenting a device token with the development flag set. -/
def hdrsAppleDev : Headers :=
  ⟨[("X-Apple-Device-Token", "device-token"), ("X-Apple-Device-Development", "true")]⟩

theorem appleEndpoint_selection_witness :
    getAppleEndpoint true =
      "https://api.development.devicecheck.apple.com/v1/validate_device_token" ∧
    getAppleEndpoint false =
      "https://api.devicecheck.apple.com/v1/validate_device_token" ∧
    "https://api.development.devicecheck.apple.com/v1/validate_device_token" =
      getAppleEndpoint (hdrsAppleDev.get "X-Apple-Device-Development" == some "true") :=
  appleEndpoint_selection wEnv wOk hdrsAppleDev
    "https://api.development.devicecheck.apple.com/v1/validate_device_token" (by decide)

/-- C8: when both the access-assertion header and the device-token header are
absent, `check` returns `false` and its trace contains no outbound network
call — neither an attestation request nor a JWKS fetch. -/
theorem check_noCredential_no_calls (env : Env) (w : World) (h : Headers)
    (url : String) (hcf : h.has "Cf-Access-Jwt-Assertion" = false)
    (hap : h.has "X-Apple-Device-Token" = false) :
    (check env w h).1 = false ∧
    Event.fetchApple url ∉ (check env w h).2 ∧
    Event.fetchJwks url ∉ (check env w h).2 := by
  refine ⟨by simp [check, hcf, hap], ?_, ?_⟩
  · intro hm
    rcases check_events_cases hm with ⟨s, h1⟩ | ⟨s, h1⟩ | ⟨hc, _⟩ | ⟨_, ha, _⟩
    · exact Event.noConfusion h1
    · exact Event.noConfusion h1
    · rw [hcf] at hc; exact Bool.noConfusion hc
    · rw [hap] at ha; exact Bool.noConfusion ha
  · intro hm
    rcases check_events_cases hm with ⟨s, h1⟩ | ⟨s, h1⟩ | ⟨hc, _⟩ | ⟨_, ha, _⟩
    · exact Event.noConfusion h1
    · exact Event.noConfusion h1
    · rw [hcf] at hc; exact Bool.noConfusion hc
    · rw [hap] at ha; exact Bool.noConfusion ha

/-- A header set with unrelated headers only. -/
def hdrsNone : Headers :=
  ⟨[("Accept", "application/json"), ("User-Agent", "curl/8.0")]⟩

theorem check_noCredential_no_calls_witness :
    (check wEnv wOk hdrsNone).1 = false ∧
    Event.fetchApple "https://api.devicecheck.apple.com/v1/validate_device_token" ∉
      (check wEnv wOk hdrsNone).2 ∧
    Event.fetchJwks "https://api.devicecheck.apple.com/v1/validate_device_token" ∉
      (check wEnv wOk hdrsNone).2 :=
  check_noCredential_no_calls wEnv wOk hdrsNone
    "https://api.devicecheck.apple.com/v1/validate_device_token" (by decide) (by decide)

/-- C10: the `transaction_id` of every claim the Attestation path creates is
the string `trns-` followed by the decimal rendering of the claim's
`timestamp` field — both come from the single clock reading taken in
`createDeviceClaim`. -/
theorem transactionId_eq_trns_timestamp (deviceToken : String) (now : Nat) :
    (createDeviceClaim deviceToken now).transaction_id =
      "trns-" ++ Nat.repr (createDeviceClaim deviceToken now).timestamp := rfl

/-- C5: every envelope the Assertion Signer produces names the configured key
id and the ES256 algorithm in its protected header, carries the claim as its
payload, has issuer equal to the configured issuer identity, issued-at equal
to the claim creation time, and expiration equal to issued-at plus exactly
one hour (3600 seconds). -/
theorem generateAppleJWT_envelope_fields (env : Env) (w : World)
    (deviceToken : String) (envlp : SignedEnvelope)
    (hsig : generateAppleJWT env w (createDeviceClaim deviceToken w.now) =
      Except.ok envlp) :
    envlp.alg = "ES256" ∧ envlp.kid = env.APPLE_KEY_ID ∧
    envlp.iss = env.APPLE_DEVELOPER_ID ∧
    envlp.payload = createDeviceClaim deviceToken w.now ∧
    envlp.iat = (createDeviceClaim deviceToken w.now).timestamp ∧
    envlp.exp = envlp.iat + 3600 := by
  unfold generateAppleJWT at hsig
  by_cases h1 : w.keyImportOk
  · by_cases h2 : w.signOk
    · simp only [h1, h2, Bool.not_true, Bool.false_eq_true, if_false,
        Except.ok.injEq] at hsig
      subst hsig
      exact ⟨rfl, rfl, rfl, rfl, rfl, rfl⟩
    · simp [h1, h2] at hsig
  · simp [h1] at hsig

/-- The envelope produced in the concrete all-successful world. -/
def jwtEnv0 : SignedEnvelope :=
  { alg := "ES256"
    kid := "kid-1"
    payload := createDeviceClaim "device-token" 1000
    iss := "team-apple"
    iat := 1000
    exp := 4600 }

theorem generateAppleJWT_envelope_fields_witness :
    jwtEnv0.alg = "ES256" ∧ jwtEnv0.kid = wEnv.APPLE_KEY_ID ∧
    jwtEnv0.iss = wEnv.APPLE_DEVELOPER_ID ∧
    jwtEnv0.payload = createDeviceClaim "device-token" wOk.now ∧
    jwtEnv0.iat = (createDeviceClaim "device-token" wOk.now).timestamp ∧
    jwtEnv0.exp = jwtEnv0.iat + 3600 :=
  generateAppleJWT_envelope_fields wEnv wOk "device-token" jwtEnv0 (by rfl)

/-- A request presenting a secret device token. -/
def hdrsSecretApple : Headers :=
  ⟨[("X-Apple-Device-Token", "secret-device-token")]⟩

/-- A request presenting a secret bearer assertion. -/
def hdrsSecretCf : Headers :=
  ⟨[("Cf-Access-Jwt-Assertion", "secret-bearer-token")]⟩

/-- C3 (violated by the code): the opening `forEach` of `check` writes every
header, name and value, to the log — so the raw caller-supplied device token
and the raw bearer assertion both appear verbatim in the log output. -/
theorem check_logs_raw_tokens :
    Event.log "x-apple-device-token: secret-device-token" ∈
      (check wEnv wOk hdrsSecretApple).2 ∧
    Event.log "cf-access-jwt-assertion: secret-bearer-token" ∈
      (check wEnv wOk hdrsSecretCf).2 := by decide

/-- Numeric value of a decimal digit character. -/
def digitVal (c : Char) : Nat := c.toNat - 48

/-- Decimal value of a digit string, most significant digit first, on top of
an accumulator. -/
def evalDigits (a : Nat) (l : List Char) : Nat :=
  l.foldl (fun acc c => 10 * acc + digitVal c) a

theorem digitVal_digitChar : ∀ m, m < 10 → digitVal (Nat.digitChar m) = m := by decide

theorem toDigitsCore_shift (fuel : Nat) : ∀ (n : Nat) (ds : List Char),
    Nat.toDigitsCore 10 fuel n ds = Nat.toDigitsCore 10 fuel n [] ++ ds := by
  induction fuel with
  | zero => intro n ds; rfl
  | succ f ih =>
    intro n ds
    simp only [Nat.toDigitsCore]
    by_cases h : n / 10 = 0
    · simp [h]
    · simp only [h, if_false]
      rw [ih (n / 10) (Nat.digitChar (n % 10) :: ds), ih (n / 10) [Nat.digitChar (n % 10)]]
      simp

theorem evalDigits_append (a : Nat) (l1 l2 : List Char) :
    evalDigits a (l1 ++ l2) = evalDigits (evalDigits a l1) l2 := by
  simp [evalDigits, List.foldl_append]

theorem evalDigits_toDigitsCore (fuel : Nat) : ∀ (n a : Nat), n < fuel →
    evalDigits a (Nat.toDigitsCore 10 fuel n []) =
      a * 10 ^ (Nat.toDigitsCore 10 fuel n []).length + n := by
  induction fuel with
  | zero => intro n a h; omega
  | succ f ih =>
    intro n a h
    simp only [Nat.toDigitsCore]
    by_cases h0 : n / 10 = 0
    · simp only [h0, if_true]
      have hn : n < 10 := by omega
      have hmod : n % 10 = n := Nat.mod_eq_of_lt hn
      simp [evalDigits, hmod, digitVal_digitChar n hn]
      ring
    · simp only [h0, if_false]
      have hdiv : n / 10 < f := by
        have h1 : 0 < n := by omega
        have := Nat.div_lt_self h1 (by norm_num : 1 < 10)
        omega
      have hd : digitVal (Nat.digitChar (n % 10)) = n % 10 :=
        digitVal_digitChar (n % 10) (Nat.mod_lt n (by omega))
      rw [toDigitsCore_shift f (n / 10) [Nat.digitChar (n % 10)], evalDigits_append,
        ih (n / 10) a hdiv]
      have hlen : ((Nat.toDigitsCore 10 f (n / 10) []) ++ [Nat.digitChar (n % 10)]).length
          = (Nat.toDigitsCore 10 f (n / 10) []).length + 1 := by simp
      rw [hlen, pow_succ, ← mul_assoc]
      show 10 * (a * 10 ^ (Nat.toDigitsCore 10 f (n / 10) []).length + n / 10) +
          digitVal (Nat.digitChar (n % 10)) = _
      rw [hd]
      generalize a * 10 ^ (Nat.toDigitsCore 10 f (n / 10) []).length = Y
      omega

/-- Reading back the decimal rendering of `n` recovers `n`. -/
theorem evalDigits_toDigits (n : Nat) : evalDigits 0 (Nat.toDigits 10 n) = n := by
  have := evalDigits_toDigitsCore (n + 1) n 0 (Nat.lt_succ_self n)
  simpa [Nat.toDigits] using this

/-- The decimal rendering of a natural number is injective. -/
theorem reprNat_inj {m n : Nat} (h : Nat.repr m = Nat.repr n) : m = n := by
  have hdata : Nat.toDigits 10 m = Nat.toDigits 10 n := congrArg String.data h
  calc m = evalDigits 0 (Nat.toDigits 10 m) := (evalDigits_toDigits m).symm
    _ = evalDigits 0 (Nat.toDigits 10 n) := by rw [hdata]
    _ = n := evalDigits_toDigits n

/-- Appending to a fixed string on the left is injective. -/
theorem strApp_cancel {a b c : String} (h : a ++ b = a ++ c) : b = c := by
  have hd := congrArg String.data h
  simp only [String.data_append] at hd
  have := List.append_cancel_left hd
  cases b; cases c; exact congrArg String.mk this

/-- C4 counterexample: two distinct validation attempts — they present
different device tokens, so they create different claims — whose clock
readings fall in the same millisecond receive the same `transaction_id`;
the code does not uniquely derive `transaction_id` per validation attempt. -/
theorem transactionId_collision :
    createDeviceClaim "token-a" 1000 ≠ createDeviceClaim "token-b" 1000 ∧
    (createDeviceClaim "token-a" 1000).transaction_id =
      (createDeviceClaim "token-b" 1000).transaction_id := by decide

/-- C4 (amended): two validation attempts whose claim-creation clock readings
differ receive distinct `transaction_id` values — `transaction_id` is derived
injectively from the clock reading, so uniqueness holds exactly when the
readings are unique. -/
theorem transactionId_injective_in_timestamp (t1 t2 : String) (n1 n2 : Nat)
    (hne : n1 ≠ n2) :
    (createDeviceClaim t1 n1).transaction_id ≠
      (createDeviceClaim t2 n2).transaction_id := by
  intro h
  exact hne (reprNat_inj (strApp_cancel h))

theorem transactionId_injective_in_timestamp_witness :
    (createDeviceClaim "token-a" 1000).transaction_id ≠
      (createDeviceClaim "token-b" 1001).transaction_id :=
  transactionId_injective_in_timestamp "token-a" "token-b" 1000 1001 (by decide)

/-- A non-200 attestation response carrying error detail in its body. -/
def resp500 : HttpResponse := { status := 500, body := "upstream error detail" }

/-- A world in which the attestation endpoint rejects with status 500. -/
def w500 : World :=
  { now := 1000
    keyImportOk := true
    signOk := true
    attestResult := Except.ok resp500
    jwksOk := true
    cfToken :=
      { wellFormed := true
        sigValid := true
        expired := false
        aud := "aud-tag"
        iss := "https://myteam.cloudflareaccess.com" } }

/-- A header set presenting only a device token. -/
def hdrsApple : Headers := ⟨[("X-Apple-Device-Token", "device-token")]⟩

/-- C9 counterexample: on a 500 attestation response the dual-path validator
returns `false` but never reads (drains) the response body — no body-read
event appears in its trace, refuting the claim that the Attestation Client
reads the body of every non-200 response. -/
theorem attestation_body_not_read :
    resp500.status ≠ 200 ∧
    w500.attestResult = Except.ok resp500 ∧
    (check wEnv w500 hdrsApple).1 = false ∧
    Event.readBody ∉ (check wEnv w500 hdrsApple).2 :=
  ⟨by decide, rfl, by decide, by decide⟩

/-- C9 (amended): on every non-200 attestation response the caller of the
validator observes only the boolean `false` — the body is never exposed; the
body-draining behaviour exists only in the earlier variant's
`handleUpstreamResponse`, which reads the body into an error that the
coordinator absorbs. -/
theorem attestation_non200_false_and_drain (env : Env) (w : World) (h : Headers)
    (resp : HttpResponse) (hcf : h.has "Cf-Access-Jwt-Assertion" = false)
    (ha : w.attestResult = Except.ok resp) (hs : resp.status ≠ 200) :
    (check env w h).1 = false ∧
    (handleUpstreamResponse resp).2 = [Event.readBody] ∧
    (handleUpstreamResponse resp).1 =
      Except.error ("Upstream response error: " ++ Nat.repr resp.status ++
        " - " ++ resp.body) := by
  refine ⟨?_, ?_, ?_⟩
  · by_cases hap : h.has "X-Apple-Device-Token"
    · have h1 : (check env w h).1 = (validateAppleDeviceToken env w h).1 := by
        simp [check, hcf, hap]
      rw [h1]
      cases hb : (validateAppleDeviceToken env w h).1
      · rfl
      · rcases (validateApple_true_iff_aux env w h).mp hb with ⟨_, _, _, r, har, hst⟩
        rw [ha] at har
        cases har
        exact absurd hst hs
    · simp [check, hcf, hap]
  · simp [handleUpstreamResponse, bne_iff_ne, hs]
  · simp [handleUpstreamResponse, bne_iff_ne, hs]

theorem attestation_non200_false_and_drain_witness :
    (check wEnv w500 hdrsApple).1 = false ∧
    (handleUpstreamResponse resp500).2 = [Event.readBody] ∧
    (handleUpstreamResponse resp500).1 =
      Except.error ("Upstream response error: " ++ Nat.repr resp500.status ++
        " - " ++ resp500.body) :=
  attestation_non200_false_and_drain wEnv w500 hdrsApple resp500
    (by decide) rfl (by decide)

end Checkd
